import Mathlib

/-!
Shallow embedding of the Ticket Lifecycle & Settlement Engine of the
Digital Parking Management System (Express + SQLite).  The routes embedded
here are the cashier routes (check-in, check-out, receipt/recovery, shift
open) together with the billing computation shared with the JSON API.

Statuses are kept as the SQLite TEXT values used by the source
("vacant", "occupied", "pending", "paid", "open", ...).  Money and time
stamps are rationals; `Date.now()`-derived tokens (ticket numbers, receipt
numbers) are modelled by the `now` argument of each operation.  Storage
write failures are modelled exactly where the source has an error callback
whose behaviour a property depends on (the three writes of check-out, and
the recovery INSERT); audit logging is fire-and-forget and out of scope.
Table constraints follow the CREATE TABLE statements of the database
initialization code embedded in src/ejs-validator.js.
-/

namespace Parking

/-- Row of parking_slots (columns used by the cashier routes). -/
structure Slot where
  id : Nat
  slotNumber : Nat
  status : String
  hourlyRate : ℚ
  dailyRate : ℚ
deriving DecidableEq

/-- Row of vehicles (columns of the check-in INSERT OR REPLACE). -/
structure Vehicle where
  id : Nat
  licensePlate : String
  make : Option String
  model : Option String
  color : Option String
  year : Option String
  ownerName : Option String
  ownerPhone : Option String
  ownerEmail : Option String
deriving DecidableEq

/-- Row of drivers (columns of the check-in INSERT OR REPLACE). -/
structure Driver where
  id : Nat
  fullName : String
  phone : Option String
  email : Option String
  idNumber : Option String
  licenseNumber : Option String
  address : Option String
deriving DecidableEq

/-- Row of parking_tickets.  check_in_time is always stamped
(CURRENT_TIMESTAMP at creation); check_out_time, duration_hours and
total_amount stay NULL until check-out. -/
structure Ticket where
  id : Nat
  ticketNumber : ℚ
  slotId : Nat
  vehicleId : Nat
  driverId : Nat
  cashierId : Nat
  checkInTime : ℚ
  checkOutTime : Option ℚ
  durationHours : Option ℚ
  totalAmount : Option ℚ
  paymentStatus : String
deriving DecidableEq

/-- Row of payments. -/
structure Payment where
  id : Nat
  ticketId : Nat
  amount : ℚ
  paymentMethod : String
  referenceNumber : Option String
  cashierId : Nat
  receiptNumber : ℚ
  notes : Option String
deriving DecidableEq

/-- Row of shifts. -/
structure Shift where
  id : Nat
  cashierId : Nat
  shiftDate : Nat
  openTime : ℚ
  closeTime : Option ℚ
  openingAmount : ℚ
  closingAmount : Option ℚ
  totalCollected : Option ℚ
  variance : Option ℚ
  status : String
  notes : Option String
deriving DecidableEq

/-- The SQLite store.  Tables are row lists; the nextXId counters model the
INTEGER PRIMARY KEY AUTOINCREMENT rowids reported to the callbacks as
this.lastID. -/
structure DB where
  slots : List Slot
  vehicles : List Vehicle
  drivers : List Driver
  tickets : List Ticket
  payments : List Payment
  shifts : List Shift
  nextVehicleId : Nat
  nextDriverId : Nat
  nextTicketId : Nat
  nextPaymentId : Nat
  nextShiftId : Nat
deriving DecidableEq

/-- Billing computation of POST /cashier/check-out/:id and of
GET /api/tickets/:id/checkout: totalCost = Math.ceil(durationHours) *
hourly_rate, on the fractional elapsed duration in hours. -/
def totalCost (durationHours hourlyRate : ℚ) : ℚ :=
  (⌈durationHours⌉ : ℚ) * hourlyRate

/-- Form data of POST /cashier/check-in; absent/empty (JS-falsy) form
fields are `none`. -/
structure CheckInRequest where
  slotId : Option Nat
  licensePlate : Option String
  make : Option String
  model : Option String
  color : Option String
  year : Option String
  ownerName : Option String
  ownerPhone : Option String
  ownerEmail : Option String
  driverName : Option String
  driverPhone : Option String
  driverEmail : Option String
  idNumber : Option String
  licenseNumber : Option String
  address : Option String
deriving DecidableEq

inductive CheckInResult
  | ok (ticketId : Nat)
  | errValidation
  | errSlotUnavailable
deriving DecidableEq

/-- INSERT OR REPLACE INTO vehicles (license_plate, make, model, color,
year, owner_name, owner_phone, owner_email).
The vehicles schema (CREATE TABLE in src/ejs-validator.js) declares
license_plate VARCHAR(20) UNIQUE NOT NULL, so SQLite INSERT OR REPLACE
deletes any row carrying the same plate and inserts a fresh row whose new
rowid is reported as this.lastID. -/
def upsertVehicle (db : DB) (plate : String)
    (make model color year ownerName ownerPhone ownerEmail : Option String) :
    Nat × DB :=
  let vid := db.nextVehicleId
  (vid,
   { db with
      vehicles :=
        (db.vehicles.filter (fun v => v.licensePlate != plate)) ++
          [{ id := vid, licensePlate := plate, make := make, model := model,
             color := color, year := year, ownerName := ownerName,
             ownerPhone := ownerPhone, ownerEmail := ownerEmail }],
      nextVehicleId := vid + 1 })

/-- INSERT OR REPLACE INTO drivers (full_name, phone, email, id_number,
license_number, address).
The drivers schema (CREATE TABLE in src/ejs-validator.js) has no UNIQUE
constraint besides the implicit rowid, so the OR REPLACE clause never
fires: the statement always inserts a fresh row and existing driver rows
are never deleted, in spite of the upsert intent. -/
def upsertDriver (db : DB) (fullName : String)
    (phone email idNumber licenseNumber address : Option String) :
    Nat × DB :=
  let did := db.nextDriverId
  (did,
   { db with
      drivers :=
        db.drivers ++
          [{ id := did, fullName := fullName, phone := phone, email := email,
             idNumber := idNumber, licenseNumber := licenseNumber,
             address := address }],
      nextDriverId := did + 1 })

/-- UPDATE parking_slots SET status = st WHERE id = sid. -/
def setSlotStatus (db : DB) (sid : Nat) (st : String) : DB :=
  { db with
     slots := db.slots.map (fun s => if s.id == sid then { s with status := st } else s) }

/-- POST /cashier/check-in.  Field presence is validated first; then the
slot row is loaded and must still have status vacant; then vehicle and
driver are upserted, the ticket is created OPEN (payment_status pending,
check_out_time NULL) with ticket number TKT${Date.now()} (modelled by
`now`), and the slot is set occupied.  Write failures of the individual
inserts are not depended on by any property and are not injected here. -/
def checkIn (db : DB) (now : ℚ) (cashierId : Nat) (req : CheckInRequest) :
    CheckInResult × DB :=
  match req.slotId, req.licensePlate, req.driverName with
  | some sid, some plate, some dname =>
      match db.slots.find? (fun s => s.id == sid) with
      | none => (.errSlotUnavailable, db)
      | some slot =>
          if slot.status == "vacant" then
            let v := upsertVehicle db plate req.make req.model req.color req.year
                req.ownerName req.ownerPhone req.ownerEmail
            let d := upsertDriver v.2 dname req.driverPhone req.driverEmail
                req.idNumber req.licenseNumber req.address
            let db2 := d.2
            let tid := db2.nextTicketId
            let tkt : Ticket :=
              { id := tid, ticketNumber := now, slotId := sid, vehicleId := v.1,
                driverId := d.1, cashierId := cashierId, checkInTime := now,
                checkOutTime := none, durationHours := none, totalAmount := none,
                paymentStatus := "pending" }
            let db3 := { db2 with tickets := db2.tickets ++ [tkt], nextTicketId := tid + 1 }
            (.ok tid, setSlotStatus db3 sid "occupied")
          else (.errSlotUnavailable, db)
  | _, _, _ => (.errValidation, db)

/-- Failure injection for the three writes of POST /cashier/check-out/:id,
one flag per db.run error callback of the source. -/
structure WriteFails where
  ticketUpdate : Bool
  paymentInsert : Bool
  slotUpdate : Bool
deriving DecidableEq

def noFails : WriteFails := ⟨false, false, false⟩

inductive CheckOutResult
  | ok
  | errPaymentMethodRequired
  | errTicketNotFound
  | errPaymentInsertFailed
  | noResponse
deriving DecidableEq

/-- UPDATE parking_tickets SET check_out_time = CURRENT_TIMESTAMP,
duration_hours = ?, total_amount = ?, payment_status = 'paid' WHERE id = ?. -/
def updateTicketSettled (db : DB) (tid : Nat) (now d amount : ℚ) : DB :=
  { db with
     tickets := db.tickets.map (fun t =>
       if t.id == tid then
         { t with checkOutTime := some now, durationHours := some d,
                  totalAmount := some amount, paymentStatus := "paid" }
       else t) }

/-- INSERT INTO payments (ticket_id, amount, payment_method,
reference_number, cashier_id, receipt_number, notes).
The payments table carries no UNIQUE constraint on ticket_id: the spec's
design notes record the source's check-then-insert recovery as having no
such guard, so the insert always appends. -/
def insertPayment (db : DB) (tid : Nat) (amount : ℚ) (method : String)
    (ref : Option String) (cashierId : Nat) (receiptNumber : ℚ)
    (notes : Option String) : DB :=
  { db with
     payments :=
       db.payments ++
         [{ id := db.nextPaymentId, ticketId := tid, amount := amount,
            paymentMethod := method, referenceNumber := ref,
            cashierId := cashierId, receiptNumber := receiptNumber,
            notes := notes }],
     nextPaymentId := db.nextPaymentId + 1 }

/-- POST /cashier/check-out/:id.  Loads the ticket joined with its slot
(either row missing gives the Ticket-not-found redirect), computes the
fractional duration and totalCost, then performs the three writes in
sequence inside db.serialize, with no BEGIN/COMMIT: a failing ticket
UPDATE sets transactionFailed and returns (the later callbacks that would
send a response never run, hence `noResponse`); a failing payment INSERT
redirects with an error but leaves the already-committed ticket UPDATE in
place; a failing slot UPDATE is logged and deliberately ignored.  The
source performs no payment_status check on this route (the already-paid
redirect lives only in the GET page handler). -/
def checkOut (db : DB) (now : ℚ) (cashierId : Nat) (tid : Nat)
    (method : Option String) (ref notes : Option String) (fails : WriteFails) :
    CheckOutResult × DB :=
  match method with
  | none => (.errPaymentMethodRequired, db)
  | some m =>
      match db.tickets.find? (fun t => t.id == tid) with
      | none => (.errTicketNotFound, db)
      | some t =>
          match db.slots.find? (fun s => s.id == t.slotId) with
          | none => (.errTicketNotFound, db)
          | some slot =>
              let d := now - t.checkInTime
              let amount := totalCost d slot.hourlyRate
              if fails.ticketUpdate then (.noResponse, db)
              else
                let db1 := updateTicketSettled db tid now d amount
                if fails.paymentInsert then (.errPaymentInsertFailed, db1)
                else
                  let db2 := insertPayment db1 tid amount m ref cashierId now notes
                  let db3 := if fails.slotUpdate then db2
                             else setSlotStatus db2 t.slotId "vacant"
                  (.ok, db3)

inductive ReceiptResult
  | ok
  | errTicketNotFound
  | errPaymentRequired
  | errContactAdministrator
deriving DecidableEq

/-- Amount reconstruction of the recovery mechanism: the slot's hourly rate
is fetched through the join on slot_id, and if the slot row is found and
both timestamps are present the amount is recomputed with the billing
rule; otherwise paymentAmount = 5, the hard-coded default. -/
def recoveredAmount (db : DB) (t : Ticket) : ℚ :=
  match db.slots.find? (fun s => s.id == t.slotId), t.checkOutTime with
  | some slot, some outTime => totalCost (outTime - t.checkInTime) slot.hourlyRate
  | _, _ => 5

/-- The let paymentAmount computation of the recovery block: the stored
total_amount is used unless it is JS-falsy (NULL or 0), in which case the
amount is reconstructed. -/
def recoveryPaymentAmount (db : DB) (t : Ticket) : ℚ :=
  match t.totalAmount with
  | some a => if a == 0 then recoveredAmount db t else a
  | none => recoveredAmount db t

/-- GET /cashier/receipt/:id, the route embedding the spec's
recoverMissingPayment.  Loads the ticket (404 if absent), requires
payment_status paid, then checks for an existing payments row by
ticket_id; if none exists it computes `recoveryPaymentAmount` and inserts
a recovery payment with method cash, reference RECOVERY and receipt
number RCP${Date.now()}.  Only a failure of that INSERT itself (injected
through `failRecoveryInsert`) produces the contact-administrator error.
The final read-only receipt join has no state effect and is elided; `ok`
means the flow proceeded past the recovery block. -/
def viewReceipt (db : DB) (now : ℚ) (cashierId : Nat) (tid : Nat)
    (failRecoveryInsert : Bool) : ReceiptResult × DB :=
  match db.tickets.find? (fun t => t.id == tid) with
  | none => (.errTicketNotFound, db)
  | some t =>
      if t.paymentStatus != "paid" then (.errPaymentRequired, db)
      else
        match db.payments.find? (fun p => p.ticketId == tid) with
        | some _ => (.ok, db)
        | none =>
            if failRecoveryInsert then (.errContactAdministrator, db)
            else
              (.ok,
               insertPayment db tid (recoveryPaymentAmount db t) "cash"
                 (some "RECOVERY") cashierId now
                 (some "Payment record recovered automatically"))

inductive ShiftResult
  | ok (shiftId : Nat)
deriving DecidableEq

/-- POST /cashier/shift/open: INSERT INTO shifts (cashier_id, shift_date,
open_time, opening_amount, notes) VALUES (?, DATE('now'),
CURRENT_TIMESTAMP, ?, ?), executed unconditionally — the route performs no
check for an existing open shift (only the GET page queries one, to render
the form).  The status column is not in the INSERT's column list and takes
its schema default: the shifts CREATE TABLE in src/ejs-validator.js
declares status TEXT CHECK(status IN ('open', 'closed')) DEFAULT 'open',
which is how the dashboard and close queries find the inserted row. -/
def openShift (db : DB) (today : Nat) (now : ℚ) (cashierId : Nat)
    (openingAmount : Option ℚ) (notes : Option String) : ShiftResult × DB :=
  let sid := db.nextShiftId
  (.ok sid,
   { db with
      shifts :=
        db.shifts ++
          [{ id := sid, cashierId := cashierId, shiftDate := today,
             openTime := now, closeTime := none,
             openingAmount := openingAmount.getD 0, closingAmount := none,
             totalCollected := none, variance := none, status := "open",
             notes := notes }],
      nextShiftId := sid + 1 })

/-- Number of payments rows for a ticket id. -/
def countPaymentsFor (db : DB) (tid : Nat) : Nat :=
  (db.payments.filter (fun p => p.ticketId == tid)).length

/-- Number of tickets referencing a slot with check_out_time NULL. -/
def openTicketsOn (db : DB) (sid : Nat) : Nat :=
  (db.tickets.filter (fun t => t.slotId == sid && t.checkOutTime.isNone)).length

/-- Spec invariant: a slot is occupied iff exactly one ticket references it
with check_out_time NULL. -/
def slotInvariant (db : DB) : Prop :=
  ∀ s ∈ db.slots, (s.status = "occupied" ↔ openTicketsOn db s.id = 1)

instance (db : DB) : Decidable (slotInvariant db) := by
  unfold slotInvariant
  infer_instance


/-!
Concrete fixtures.  Each claim gets its own states so that the theorems
about one claim stand alone; all monetary values use the 5.00 hourly rate
of the spec's billing examples.
-/

/-- Fixture: one occupied slot (rate 5) with one OPEN (pending) ticket on it. -/
def dbC1 : DB :=
  { slots := [{ id := 1, slotNumber := 1, status := "occupied", hourlyRate := 5, dailyRate := 40 }],
    vehicles := [], drivers := [],
    tickets := [{ id := 1, ticketNumber := 0, slotId := 1, vehicleId := 1, driverId := 1,
                  cashierId := 7, checkInTime := 0, checkOutTime := none,
                  durationHours := none, totalAmount := none, paymentStatus := "pending" }],
    payments := [], shifts := [],
    nextVehicleId := 2, nextDriverId := 2, nextTicketId := 2, nextPaymentId := 1, nextShiftId := 1 }

/-- Fixture ticket: OPEN, checked in at time 0. -/
def tC2 : Ticket :=
  { id := 1, ticketNumber := 0, slotId := 1, vehicleId := 1, driverId := 1,
    cashierId := 7, checkInTime := 0, checkOutTime := none,
    durationHours := none, totalAmount := none, paymentStatus := "pending" }

/-- Fixture slot: occupied, hourly rate 5. -/
def slotC2 : Slot :=
  { id := 1, slotNumber := 1, status := "occupied", hourlyRate := 5, dailyRate := 40 }

def dbC2 : DB :=
  { slots := [slotC2], vehicles := [], drivers := [], tickets := [tC2],
    payments := [], shifts := [],
    nextVehicleId := 2, nextDriverId := 2, nextTicketId := 2, nextPaymentId := 1, nextShiftId := 1 }

def tC3 : Ticket :=
  { id := 1, ticketNumber := 0, slotId := 1, vehicleId := 1, driverId := 1,
    cashierId := 7, checkInTime := 0, checkOutTime := none,
    durationHours := none, totalAmount := none, paymentStatus := "pending" }

def slotC3 : Slot :=
  { id := 1, slotNumber := 1, status := "occupied", hourlyRate := 5, dailyRate := 40 }

def dbC3 : DB :=
  { slots := [slotC3], vehicles := [], drivers := [], tickets := [tC3],
    payments := [], shifts := [],
    nextVehicleId := 2, nextDriverId := 2, nextTicketId := 2, nextPaymentId := 1, nextShiftId := 1 }

/-- Fixture: ticket 1 already settled (paid, one payment row), slot vacant. -/
def dbC4 : DB :=
  { slots := [{ id := 1, slotNumber := 1, status := "vacant", hourlyRate := 5, dailyRate := 40 }],
    vehicles := [], drivers := [],
    tickets := [{ id := 1, ticketNumber := 0, slotId := 1, vehicleId := 1, driverId := 1,
                  cashierId := 7, checkInTime := 0, checkOutTime := some 2,
                  durationHours := some 2, totalAmount := some 10, paymentStatus := "paid" }],
    payments := [{ id := 1, ticketId := 1, amount := 10, paymentMethod := "cash",
                   referenceNumber := none, cashierId := 7, receiptNumber := 2, notes := none }],
    shifts := [],
    nextVehicleId := 2, nextDriverId := 2, nextTicketId := 2, nextPaymentId := 2, nextShiftId := 1 }

/-- Fixture: empty store. -/
def dbC5 : DB :=
  { slots := [], vehicles := [], drivers := [], tickets := [], payments := [], shifts := [],
    nextVehicleId := 1, nextDriverId := 1, nextTicketId := 1, nextPaymentId := 1, nextShiftId := 1 }

/-- Fixture: paid ticket with total_amount 0 whose slot row is missing. -/
def dbC6 : DB :=
  { slots := [], vehicles := [], drivers := [],
    tickets := [{ id := 9, ticketNumber := 0, slotId := 99, vehicleId := 1, driverId := 1,
                  cashierId := 7, checkInTime := 0, checkOutTime := some 1,
                  durationHours := some 1, totalAmount := some 0, paymentStatus := "paid" }],
    payments := [], shifts := [],
    nextVehicleId := 1, nextDriverId := 1, nextTicketId := 1, nextPaymentId := 1, nextShiftId := 1 }

def tC6w : Ticket :=
  { id := 9, ticketNumber := 0, slotId := 99, vehicleId := 1, driverId := 1,
    cashierId := 7, checkInTime := 0, checkOutTime := some 1,
    durationHours := some 1, totalAmount := some 0, paymentStatus := "paid" }

def dbC6w : DB :=
  { slots := [], vehicles := [], drivers := [],
    tickets := [tC6w], payments := [], shifts := [],
    nextVehicleId := 1, nextDriverId := 1, nextTicketId := 1, nextPaymentId := 1, nextShiftId := 1 }

/-- Fixture: paid ticket with no payments row (the state the recovery
mechanism exists for). -/
def tC7 : Ticket :=
  { id := 3, ticketNumber := 0, slotId := 1, vehicleId := 1, driverId := 1,
    cashierId := 7, checkInTime := 0, checkOutTime := some 2,
    durationHours := some 2, totalAmount := some 10, paymentStatus := "paid" }

def dbC7 : DB :=
  { slots := [{ id := 1, slotNumber := 1, status := "vacant", hourlyRate := 5, dailyRate := 40 }],
    vehicles := [], drivers := [], tickets := [tC7], payments := [], shifts := [],
    nextVehicleId := 2, nextDriverId := 2, nextTicketId := 4, nextPaymentId := 1, nextShiftId := 1 }

/-- Fixture: one vacant slot, empty store, for the C8 trace. -/
def dbC8init : DB :=
  { slots := [{ id := 1, slotNumber := 1, status := "vacant", hourlyRate := 5, dailyRate := 40 }],
    vehicles := [], drivers := [], tickets := [], payments := [], shifts := [],
    nextVehicleId := 1, nextDriverId := 1, nextTicketId := 1, nextPaymentId := 1, nextShiftId := 1 }

def reqC8a : CheckInRequest :=
  { slotId := some 1, licensePlate := some "AAA", make := none, model := none,
    color := none, year := none, ownerName := none, ownerPhone := none,
    ownerEmail := none, driverName := some "Bob", driverPhone := none,
    driverEmail := none, idNumber := none, licenseNumber := none, address := none }

def reqC8b : CheckInRequest := { reqC8a with licensePlate := some "BBB", driverName := some "Carol" }

/-- C8 trace: check in ticket 1, check it out, check in ticket 2 on the
same slot, then check out ticket 1 AGAIN (the source accepts it: the
already-paid guard lives only in the GET page). -/
def dbC8a : DB := (checkIn dbC8init 0 7 reqC8a).2

def dbC8b : DB := (checkOut dbC8a 2 7 1 (some "cash") none none noFails).2

def dbC8c : DB := (checkIn dbC8b 3 7 reqC8b).2

def dbC8d : DB := (checkOut dbC8c 4 7 1 (some "cash") none none noFails).2

/-- Fixture: the only slot is occupied. -/
def dbC9 : DB :=
  { slots := [{ id := 1, slotNumber := 1, status := "occupied", hourlyRate := 5, dailyRate := 40 }],
    vehicles := [], drivers := [], tickets := [], payments := [], shifts := [],
    nextVehicleId := 1, nextDriverId := 1, nextTicketId := 1, nextPaymentId := 1, nextShiftId := 1 }

def reqC9 : CheckInRequest :=
  { slotId := some 1, licensePlate := some "AAA", make := none, model := none,
    color := none, year := none, ownerName := none, ownerPhone := none,
    ownerEmail := none, driverName := some "Bob", driverPhone := none,
    driverEmail := none, idNumber := none, licenseNumber := none, address := none }

/-- A keyed UPDATE (an id-preserving rewrite of the rows matching the
WHERE clause) moves through the row lookup. -/
theorem find?_map_keyed (g : Ticket → Ticket) (hg : ∀ x, (g x).id = x.id)
    (l : List Ticket) (tid : Nat) (t : Ticket)
    (ht : l.find? (fun x => x.id == tid) = some t) :
    (l.map (fun x => if x.id == tid then g x else x)).find?
      (fun x => x.id == tid) = some (g t) := by
  induction l with
  | nil => simp at ht
  | cons a l ih =>
      cases hb : (a.id == tid) with
      | true =>
          simp only [List.find?_cons, hb] at ht
          injection ht with ht
          subst ht
          rw [List.map_cons, List.find?_cons_of_pos]
          · congr 1
            simp [hb]
          · simp [hb, hg]
      | false =>
          simp only [List.find?_cons, hb] at ht
          rw [List.map_cons, List.find?_cons_of_neg]
          · exact ih ht
          · simp [hb]

/-- Effect of the settling UPDATE on the ticket located by find?. -/
theorem find?_tickets_settled (l : List Ticket) (tid : Nat) (now d amount : ℚ)
    (t : Ticket) (ht : l.find? (fun x => x.id == tid) = some t) :
    (l.map (fun x =>
      if x.id == tid then
        { x with checkOutTime := some now, durationHours := some d,
                 totalAmount := some amount, paymentStatus := "paid" }
      else x)).find? (fun x => x.id == tid) =
      some { t with checkOutTime := some now, durationHours := some d,
                    totalAmount := some amount, paymentStatus := "paid" } :=
  find?_map_keyed
    (fun x => { x with checkOutTime := some now, durationHours := some d,
                       totalAmount := some amount, paymentStatus := "paid" })
    (fun _ => rfl) l tid t ht

/-- End state of the success path of POST /cashier/check-out/:id: the
ticket is settled, one payment row is appended, the slot is set vacant. -/
theorem checkOut_success_eq (db : DB) (now : ℚ) (cid tid : Nat) (m : String)
    (ref notes : Option String) (t : Ticket) (slot : Slot)
    (ht : db.tickets.find? (fun x => x.id == tid) = some t)
    (hs : db.slots.find? (fun s => s.id == t.slotId) = some slot) :
    checkOut db now cid tid (some m) ref notes noFails =
      (.ok,
       setSlotStatus
         (insertPayment
           (updateTicketSettled db tid now (now - t.checkInTime)
             (totalCost (now - t.checkInTime) slot.hourlyRate))
           tid (totalCost (now - t.checkInTime) slot.hourlyRate) m ref cid now notes)
         t.slotId "vacant") := by
  simp [checkOut, ht, hs, noFails]

/-- Stored and paid amounts after a successful check-out both carry the
totalCost of the elapsed duration at the slot's hourly rate. -/
theorem checkOut_amounts (db : DB) (now : ℚ) (cid tid : Nat) (m : String)
    (ref notes : Option String) (t : Ticket) (slot : Slot)
    (ht : db.tickets.find? (fun x => x.id == tid) = some t)
    (hs : db.slots.find? (fun s => s.id == t.slotId) = some slot) :
    (((checkOut db now cid tid (some m) ref notes noFails).2.tickets.find?
        (fun x => x.id == tid)).map Ticket.totalAmount) =
      some (some (totalCost (now - t.checkInTime) slot.hourlyRate)) ∧
    ∃ p ∈ (checkOut db now cid tid (some m) ref notes noFails).2.payments,
      p.ticketId = tid ∧ p.amount = totalCost (now - t.checkInTime) slot.hourlyRate := by
  rw [checkOut_success_eq db now cid tid m ref notes t slot ht hs]
  constructor
  · have hfind := find?_tickets_settled db.tickets tid now (now - t.checkInTime)
      (totalCost (now - t.checkInTime) slot.hourlyRate) t ht
    show ((updateTicketSettled db tid now (now - t.checkInTime)
        (totalCost (now - t.checkInTime) slot.hourlyRate)).tickets.find?
        (fun x => x.id == tid)).map Ticket.totalAmount = _
    unfold updateTicketSettled
    rw [hfind]
    rfl
  · refine ⟨{ id := db.nextPaymentId, ticketId := tid,
              amount := totalCost (now - t.checkInTime) slot.hourlyRate,
              paymentMethod := m, referenceNumber := ref, cashierId := cid,
              receiptNumber := now, notes := notes }, ?_, rfl, rfl⟩
    show _ ∈ (insertPayment _ tid _ m ref cid now notes).payments
    unfold insertPayment
    exact List.mem_append_right _ (List.mem_singleton.mpr rfl)

/-- C1: the three check-out writes are claimed to be atomic (all take
effect or none).  The source runs them as plain sequential statements
inside db.serialize with no BEGIN/COMMIT, so a failing payments INSERT
after a successful ticket UPDATE leaves a partial write: the ticket ends
paid with no payment row, the slot stays occupied, and the prior
(pending) state is not restored. -/
theorem checkout_payment_insert_failure_partial_write :
    (checkOut dbC1 2 7 1 (some "cash") none none ⟨false, true, false⟩).1 =
      .errPaymentInsertFailed ∧
    ((checkOut dbC1 2 7 1 (some "cash") none none ⟨false, true, false⟩).2.tickets.map
        Ticket.paymentStatus) = ["paid"] ∧
    (checkOut dbC1 2 7 1 (some "cash") none none ⟨false, true, false⟩).2.payments = [] ∧
    ((checkOut dbC1 2 7 1 (some "cash") none none ⟨false, true, false⟩).2.slots.map
        Slot.status) = ["occupied"] ∧
    dbC1.tickets.map Ticket.paymentStatus = ["pending"] := by
  decide

/-- C2: for a check-out with elapsed duration d = now - checkInTime, the
totalAmount stored on the ticket and the amount of the created Payment row
both equal ceil(d) times the slot's hourly rate. -/
theorem checkout_bills_ceil_duration_times_rate
    (db : DB) (now : ℚ) (cid tid : Nat) (m : String)
    (ref notes : Option String) (t : Ticket) (slot : Slot)
    (ht : db.tickets.find? (fun x => x.id == tid) = some t)
    (hs : db.slots.find? (fun s => s.id == t.slotId) = some slot)
    (hd : 0 < now - t.checkInTime) :
    (((checkOut db now cid tid (some m) ref notes noFails).2.tickets.find?
        (fun x => x.id == tid)).map Ticket.totalAmount) =
      some (some ((⌈now - t.checkInTime⌉ : ℚ) * slot.hourlyRate)) ∧
    ∃ p ∈ (checkOut db now cid tid (some m) ref notes noFails).2.payments,
      p.ticketId = tid ∧ p.amount = (⌈now - t.checkInTime⌉ : ℚ) * slot.hourlyRate :=
  checkOut_amounts db now cid tid m ref notes t slot ht hs

/-- Witness for C2: hourly rate 5 and a stay of 1.2 hours bill exactly 10. -/
theorem checkout_bills_ceil_duration_times_rate_witness :
    ((0:ℚ) < 6/5 - 0) ∧
    (((checkOut dbC2 (6/5) 7 1 (some "cash") none none noFails).2.tickets.find?
        (fun x => x.id == 1)).map Ticket.totalAmount) = some (some 10) ∧
    ∃ p ∈ (checkOut dbC2 (6/5) 7 1 (some "cash") none none noFails).2.payments,
      p.ticketId = 1 ∧ p.amount = 10 := by
  have hceil : (⌈(6:ℚ)/5 - 0⌉ : ℤ) = 2 := by
    rw [Int.ceil_eq_iff]
    norm_num
  have h10 : (⌈(6:ℚ)/5 - 0⌉ : ℚ) * 5 = 10 := by
    rw [hceil]
    norm_num
  have hmain := checkout_bills_ceil_duration_times_rate dbC2 (6/5) 7 1 "cash"
    none none tC2 slotC2 rfl rfl (by show (0:ℚ) < 6/5 - 0; norm_num)
  refine ⟨by norm_num, ?_, ?_⟩
  · have h1 := hmain.1
    rw [show tC2.checkInTime = 0 from rfl, show slotC2.hourlyRate = 5 from rfl, h10] at h1
    exact h1
  · have h2 := hmain.2
    rw [show tC2.checkInTime = 0 from rfl, show slotC2.hourlyRate = 5 from rfl, h10] at h2
    exact h2

/-- Counterexample for C3: an immediate check-out (elapsed duration
exactly 0, hourly rate 5) stores totalAmount 0 and pays 0, not the claimed
one-hour minimum 1 * 5. -/
theorem checkout_zero_duration_min_charge_cex :
    (((checkOut dbC3 0 7 1 (some "cash") none none noFails).2.tickets.find?
        (fun x => x.id == 1)).map Ticket.totalAmount) = some (some 0) ∧
    (∃ p ∈ (checkOut dbC3 0 7 1 (some "cash") none none noFails).2.payments,
      p.ticketId = 1 ∧ p.amount = 0) ∧
    (0 : ℚ) ≠ 1 * slotC3.hourlyRate := by
  have hz : totalCost ((0:ℚ) - tC3.checkInTime) slotC3.hourlyRate = 0 := by
    show totalCost ((0:ℚ) - 0) (5:ℚ) = 0
    unfold totalCost
    norm_num
  have hmain := checkOut_amounts dbC3 0 7 1 "cash" none none tC3 slotC3 rfl rfl
  rw [hz] at hmain
  refine ⟨hmain.1, hmain.2, ?_⟩
  show (0 : ℚ) ≠ 1 * 5
  norm_num

/-- C3 (amended): a check-out with elapsed duration exactly 0 computes
totalAmount = ceil(0) * hourlyRate = 0; the code applies no one-hour
minimum charge. -/
theorem checkout_zero_duration_bills_zero
    (db : DB) (now : ℚ) (cid tid : Nat) (m : String)
    (ref notes : Option String) (t : Ticket) (slot : Slot)
    (ht : db.tickets.find? (fun x => x.id == tid) = some t)
    (hs : db.slots.find? (fun s => s.id == t.slotId) = some slot)
    (hd : now - t.checkInTime = 0) :
    (((checkOut db now cid tid (some m) ref notes noFails).2.tickets.find?
        (fun x => x.id == tid)).map Ticket.totalAmount) = some (some 0) ∧
    ∃ p ∈ (checkOut db now cid tid (some m) ref notes noFails).2.payments,
      p.ticketId = tid ∧ p.amount = 0 := by
  have hz : totalCost (now - t.checkInTime) slot.hourlyRate = 0 := by
    rw [hd]
    unfold totalCost
    simp
  have hmain := checkOut_amounts db now cid tid m ref notes t slot ht hs
  rw [hz] at hmain
  exact hmain

/-- Witness for the amended C3. -/
theorem checkout_zero_duration_bills_zero_witness :
    ((0:ℚ) - 0 = 0) ∧
    (((checkOut dbC3 0 7 1 (some "cash") none none noFails).2.tickets.find?
        (fun x => x.id == 1)).map Ticket.totalAmount) = some (some 0) := by
  have hmain := checkout_zero_duration_bills_zero dbC3 0 7 1 "cash" none none
    tC3 slotC3 rfl rfl (by show (0:ℚ) - 0 = 0; norm_num)
  exact ⟨by norm_num, hmain.1⟩

/-- C4: a check-out POST for a ticket whose payment status is already paid
is claimed to fail with AlreadyPaid and leave the store unchanged.  The
route performs no payment-status check (the guard exists only in the GET
page handler): the call succeeds and a second payments row is inserted for
the same ticket. -/
theorem checkout_already_paid_accepted_second_payment :
    (checkOut dbC4 4 7 1 (some "cash") none none noFails).1 = .ok ∧
    countPaymentsFor dbC4 1 = 1 ∧
    countPaymentsFor (checkOut dbC4 4 7 1 (some "cash") none none noFails).2 1 = 2 := by
  decide

/-- C5: opening a shift is claimed to fail with ShiftAlreadyOpen when an
open shift exists for the cashier and date.  POST /cashier/shift/open
inserts unconditionally, so a second open on the same day also succeeds
and the store ends with two open shifts for the same (cashier, date). -/
theorem openShift_second_open_same_day_succeeds :
    (openShift dbC5 20260101 8 7 (some 100) none).1 = .ok 1 ∧
    (openShift (openShift dbC5 20260101 8 7 (some 100) none).2
      20260101 9 7 (some 50) none).1 = .ok 2 ∧
    ((openShift (openShift dbC5 20260101 8 7 (some 100) none).2
        20260101 9 7 (some 50) none).2.shifts.filter
      (fun sh => sh.cashierId == 7 && sh.shiftDate == 20260101 && sh.status == "open")).length = 2 := by
  decide

/-- Counterexample for C6: on a paid ticket whose amount cannot be
reconstructed (total_amount 0 and no slot row), the recovery path does not
fail with the contact-administrator error: it succeeds and inserts a
payment with the hard-coded default amount 5. -/
theorem recovery_fabricates_default_amount_cex :
    (viewReceipt dbC6 10 7 9 false).1 = .ok ∧
    (viewReceipt dbC6 10 7 9 false).1 ≠ .errContactAdministrator ∧
    ((viewReceipt dbC6 10 7 9 false).2.payments.map Payment.amount) = [5] ∧
    ((viewReceipt dbC6 10 7 9 false).2.payments.map Payment.referenceNumber) =
      [some "RECOVERY"] := by
  decide

/-- C6 (amended): when the recovery amount cannot be reconstructed (stored
total_amount absent or 0, and the slot row or the check-out timestamp
missing), the recovery path inserts a Payment with default amount 5 and
succeeds; the contact-administrator error is surfaced only when the
recovery INSERT itself fails, and then no row is added. -/
theorem recovery_unreconstructable_inserts_default_five
    (db : DB) (now : ℚ) (cid tid : Nat) (t : Ticket)
    (ht : db.tickets.find? (fun x => x.id == tid) = some t)
    (hp : t.paymentStatus = "paid")
    (hnone : db.payments.find? (fun p => p.ticketId == tid) = none)
    (hamt : t.totalAmount = none ∨ t.totalAmount = some 0)
    (hir : db.slots.find? (fun s => s.id == t.slotId) = none ∨ t.checkOutTime = none) :
    viewReceipt db now cid tid false =
      (.ok, insertPayment db tid 5 "cash" (some "RECOVERY") cid now
        (some "Payment record recovered automatically")) ∧
    viewReceipt db now cid tid true = (.errContactAdministrator, db) := by
  have hra : recoveredAmount db t = 5 := by
    rcases hir with h | h
    · simp [recoveredAmount, h]
    · cases hs2 : db.slots.find? (fun s => s.id == t.slotId) <;>
        simp [recoveredAmount, h, hs2]
  have hA : recoveryPaymentAmount db t = 5 := by
    rcases hamt with h | h <;> simp [recoveryPaymentAmount, h, hra]
  constructor
  · rw [show (5:ℚ) = recoveryPaymentAmount db t from hA.symm]
    simp [viewReceipt, ht, hp, hnone]
  · simp [viewReceipt, ht, hp, hnone]

/-- Witness for the amended C6. -/
theorem recovery_unreconstructable_inserts_default_five_witness :
    (tC6w.totalAmount = some 0) ∧
    viewReceipt dbC6w 10 7 9 false =
      (.ok, insertPayment dbC6w 9 5 "cash" (some "RECOVERY") 7 10
        (some "Payment record recovered automatically")) ∧
    viewReceipt dbC6w 10 7 9 true = (.errContactAdministrator, dbC6w) := by
  have h := recovery_unreconstructable_inserts_default_five dbC6w 10 7 9 tC6w
    rfl rfl rfl (Or.inr rfl) (Or.inl rfl)
  exact ⟨rfl, h.1, h.2⟩

/-- C7: the recovery path is sequentially idempotent: starting from a paid
ticket with no payments row, running the receipt/recovery flow twice in
sequence leaves exactly one payments row for that ticket id, because the
row is inserted only when the preceding existence check finds none. -/
theorem recovery_twice_exactly_one_payment
    (db : DB) (now1 now2 : ℚ) (cid1 cid2 tid : Nat) (t : Ticket)
    (ht : db.tickets.find? (fun x => x.id == tid) = some t)
    (hp : t.paymentStatus = "paid")
    (hc : countPaymentsFor db tid = 0) :
    countPaymentsFor
      (viewReceipt (viewReceipt db now1 cid1 tid false).2 now2 cid2 tid false).2
      tid = 1 := by
  have hnil : db.payments.filter (fun p => p.ticketId == tid) = [] :=
    List.length_eq_zero.mp hc
  have hnone : db.payments.find? (fun p => p.ticketId == tid) = none := by
    rw [List.find?_eq_none]
    intro p hmem
    exact List.filter_eq_nil_iff.mp hnil p hmem
  have h1 : viewReceipt db now1 cid1 tid false =
      (.ok, insertPayment db tid (recoveryPaymentAmount db t) "cash"
        (some "RECOVERY") cid1 now1 (some "Payment record recovered automatically")) := by
    simp [viewReceipt, ht, hp, hnone]
  rw [h1]
  have ht1 : (insertPayment db tid (recoveryPaymentAmount db t) "cash"
      (some "RECOVERY") cid1 now1
      (some "Payment record recovered automatically")).tickets.find?
      (fun x => x.id == tid) = some t := ht
  have hfind2 : (insertPayment db tid (recoveryPaymentAmount db t) "cash"
      (some "RECOVERY") cid1 now1
      (some "Payment record recovered automatically")).payments.find?
      (fun p => p.ticketId == tid) =
      some { id := db.nextPaymentId, ticketId := tid,
             amount := recoveryPaymentAmount db t, paymentMethod := "cash",
             referenceNumber := some "RECOVERY", cashierId := cid1,
             receiptNumber := now1,
             notes := some "Payment record recovered automatically" } := by
    show (db.payments ++
        [({ id := db.nextPaymentId, ticketId := tid,
            amount := recoveryPaymentAmount db t, paymentMethod := "cash",
            referenceNumber := some "RECOVERY", cashierId := cid1,
            receiptNumber := now1,
            notes := some "Payment record recovered automatically" } : Payment)]).find?
        (fun p : Payment => p.ticketId == tid) =
      some { id := db.nextPaymentId, ticketId := tid,
             amount := recoveryPaymentAmount db t, paymentMethod := "cash",
             referenceNumber := some "RECOVERY", cashierId := cid1,
             receiptNumber := now1,
             notes := some "Payment record recovered automatically" }
    rw [List.find?_append, hnone]
    simp
  have h2 : viewReceipt (insertPayment db tid (recoveryPaymentAmount db t) "cash"
      (some "RECOVERY") cid1 now1
      (some "Payment record recovered automatically")) now2 cid2 tid false =
      (.ok, insertPayment db tid (recoveryPaymentAmount db t) "cash"
        (some "RECOVERY") cid1 now1
        (some "Payment record recovered automatically")) := by
    simp [viewReceipt, ht1, hp, hfind2]
  rw [h2]
  show ((db.payments ++
      [({ id := db.nextPaymentId, ticketId := tid,
          amount := recoveryPaymentAmount db t, paymentMethod := "cash",
          referenceNumber := some "RECOVERY", cashierId := cid1,
          receiptNumber := now1,
          notes := some "Payment record recovered automatically" } : Payment)]).filter
      (fun p : Payment => p.ticketId == tid)).length = 1
  rw [List.filter_append, hnil]
  simp

/-- Witness for C7. -/
theorem recovery_twice_exactly_one_payment_witness :
    countPaymentsFor dbC7 3 = 0 ∧
    countPaymentsFor
      (viewReceipt (viewReceipt dbC7 10 7 3 false).2 11 8 3 false).2 3 = 1 :=
  ⟨rfl, recovery_twice_exactly_one_payment dbC7 10 11 7 8 3 tC7 rfl rfl rfl⟩

/-- C8: the slot-occupancy invariant (a slot is occupied iff exactly one
ticket references it with check_out_time NULL) is claimed to hold in every
reachable state.  Because the check-out route accepts already-paid tickets
(C4), the trace check-in 1, check-out 1, check-in 2, check-out 1 again is
accepted by the code and ends with the slot vacant while open ticket 2
still references it — the invariant is violated in a reachable state. -/
theorem slot_invariant_violated_by_double_checkout :
    (checkIn dbC8init 0 7 reqC8a).1 = .ok 1 ∧
    (checkOut dbC8a 2 7 1 (some "cash") none none noFails).1 = .ok ∧
    (checkIn dbC8b 3 7 reqC8b).1 = .ok 2 ∧
    (checkOut dbC8c 4 7 1 (some "cash") none none noFails).1 = .ok ∧
    slotInvariant dbC8c ∧
    ¬ slotInvariant dbC8d ∧
    (∃ s ∈ dbC8d.slots, s.status = "vacant" ∧ openTicketsOn dbC8d s.id = 1) := by
  decide

/-- C9: a check-in targeting a slot that does not exist or is not vacant
fails with the slot-unavailable error and leaves the store completely
unchanged (no vehicle, driver or ticket rows, slot untouched). -/
theorem checkin_unavailable_slot_fails_unchanged
    (db : DB) (now : ℚ) (cid : Nat) (req : CheckInRequest)
    (sid : Nat) (plate dname : String)
    (hsid : req.slotId = some sid) (hplate : req.licensePlate = some plate)
    (hdname : req.driverName = some dname)
    (hun : ∀ slot ∈ db.slots, slot.id = sid → slot.status ≠ "vacant") :
    checkIn db now cid req = (.errSlotUnavailable, db) := by
  simp only [checkIn, hsid, hplate, hdname]
  cases hf : db.slots.find? (fun s => s.id == sid) with
  | none => simp
  | some slot =>
      have hmem := List.mem_of_find?_eq_some hf
      have hid : slot.id = sid := by simpa using List.find?_some hf
      have hst : slot.status ≠ "vacant" := hun slot hmem hid
      simp [hst]

/-- Witness for C9. -/
theorem checkin_unavailable_slot_fails_unchanged_witness :
    (∀ slot ∈ dbC9.slots, slot.id = 1 → slot.status ≠ "vacant") ∧
    checkIn dbC9 0 7 reqC9 = (.errSlotUnavailable, dbC9) :=
  ⟨by decide, checkin_unavailable_slot_fails_unchanged dbC9 0 7 reqC9 1 "AAA" "Bob"
    rfl rfl rfl (by decide)⟩

end Parking
